import Mathlib

/-!
Verification development for the `sendmail_phone_client` device agent.

The development shallowly embeds the two source modules:
  * `ip_manager.py` — public-IP resolution, deduplicated IP history file,
    the airplane-mode rotation sequence with its bounded confirmation loop,
    and the `IPManager.change_ip` result wrapper;
  * `main.py` — the `DeviceAgent` command loop: validated public-IP lookup,
    command dispatch, and the polling `run()` loop.

External effects (HTTP requests, `su` subprocess invocations, the clock,
the on-disk history file) are passed in explicitly as oracle values, so all
definitions are executable Lean functions.  Wall-clock durations appear only
as recorded wait events; the `change_duration` field of a rotation result is
a real-time measurement and is not modelled.
-/

/-- Outcome of one Python HTTP GET as seen at the call sites: either the
request raised a network exception (`requests.RequestException`), or it
produced a response body text. -/
inductive HttpResult where
  | exn : HttpResult
  | body : String → HttpResult
deriving DecidableEq, Repr

/-- Python truthiness of an `Optional[str]` value: `None` and the empty
string are falsy, every other string is truthy. -/
def pyTruthyS : Option String → Bool
  | none => false
  | some s => !s.data.isEmpty

/-- Drop leading whitespace characters. -/
def dropLeadingWs : List Char → List Char
  | [] => []
  | c :: cs => if c.isWhitespace then dropLeadingWs cs else c :: cs

/-- Strip whitespace from both ends of a character list. -/
def stripChars (cs : List Char) : List Char :=
  (dropLeadingWs (dropLeadingWs cs).reverse).reverse

/-- Python `str.strip()`: remove whitespace from both ends. -/
def pyStrip (s : String) : String :=
  String.mk (stripChars s.data)

/-- Embeds `get_public_ipv4` (src/ip_manager.py:12-22): on a successful
request the body is returned stripped of surrounding whitespace; a
`requests.RequestException` is caught and yields `None`.  Note that no
syntactic validation whatsoever is applied to the body. -/
def get_public_ipv4 (r : HttpResult) : Option String :=
  match r with
  | .exn => none
  | .body t => some (pyStrip t)

/-- Embeds `record_ip` (src/ip_manager.py:24-56).  The history file
`total_ips.txt` is modelled as `Option (List String)`: `none` when the file
does not exist yet, `some lines` otherwise, one recorded entry per line.
Returns the Python function's boolean result (new entry recorded?) together
with the file contents after the call. -/
def record_ip (store : Option (List String)) (ip : String) : Bool × List String :=
  match store with
  | none => (true, [ip])
  | some ips => if ip ∈ ips then (false, ips) else (true, ips ++ [ip])

/-- Number of recorded entries in the history file
(`len(f.read().splitlines())` over `total_ips.txt`). -/
def history_count (store : Option (List String)) : Nat :=
  (store.getD []).length

/-- A sequence of successive `record_ip` calls, threading the file state. -/
def record_seq (store : Option (List String)) (ips : List String) : Option (List String) :=
  ips.foldl (fun st ip => some (record_ip st ip).2) store

/-- The history-file invariant claimed by the spec: no duplicate entries. -/
def nodupStore (store : Option (List String)) : Prop :=
  (store.getD []).Nodup

instance (store : Option (List String)) : Decidable (nodupStore store) := by
  unfold nodupStore; infer_instance

/-- Outcome of one `subprocess.run(['su', ...], check=True, ...)` invocation:
it either succeeds or raises `subprocess.CalledProcessError` (nonzero exit). -/
inductive SubprocResult where
  | ok
  | calledProcessError
deriving DecidableEq, Repr

/-- Whether `toggle_airplane_mode` logs a failure: true iff one of its two
`su` subprocess invocations raises `subprocess.CalledProcessError`, which is
caught and printed (src/ip_manager.py:76-77). -/
def toggleFailed (r1 r2 : SubprocResult) : Bool :=
  match r1, r2 with
  | .ok, .ok => false
  | _, _ => true

/-- Attempt budget of the confirmation loop (src/ip_manager.py:120). -/
def max_attempts : Nat := 15

/-- Sleep, in seconds, between two confirmation polls (src/ip_manager.py:147). -/
def poll_sleep : Nat := 2

/-- Observable actions of one rotation sequence, in execution order. -/
inductive Event where
  | toggle (enable : Bool) (failed : Bool)
  | wait (secs : Nat)
  | poll (attempt : Nat)
  | confirmed (ip : String)
deriving DecidableEq, Repr

/-- Number of confirmation polls recorded in a trace. -/
def countPolls (tr : List Event) : Nat :=
  tr.countP fun e => match e with | Event.poll _ => true | _ => false

/-- Embeds the confirmation `while` loop of `change_mobile_ip_at_phone`
(src/ip_manager.py:119-151).  `resolve k` is the HTTP outcome of the poll at
loop index `k`; the loop runs while `attempt < max_attempts`, so it is called
with `remaining = max_attempts - attempt`.  A Python-truthy resolved value is
recorded in the history file and returned; a falsy one sleeps `poll_sleep`
seconds and retries.  Returns the resolved IP (if any), the history file
after the loop, and the trace of polls. -/
def confirmFrom (resolve : Nat → HttpResult) (store : Option (List String)) :
    Nat → Nat → Option String × Option (List String) × List Event
  | _, 0 => (none, store, [])
  | attempt, r + 1 =>
    match get_public_ipv4 (resolve attempt) with
    | some ip =>
      if ip.data.isEmpty then
        let rest := confirmFrom resolve store (attempt + 1) r
        (rest.1, rest.2.1, Event.poll attempt :: Event.wait poll_sleep :: rest.2.2)
      else
        (some ip, some (record_ip store ip).2, [Event.poll attempt, Event.confirmed ip])
    | none =>
      let rest := confirmFrom resolve store (attempt + 1) r
      (rest.1, rest.2.1, Event.poll attempt :: Event.wait poll_sleep :: rest.2.2)

/-- Python exception classes relevant to the embedded code. -/
inductive PyExn where
  | requestException
  | calledProcessError
  | otherError
deriving DecidableEq, Repr

/-- Environment of one `change_mobile_ip_at_phone` run: the outcome of the
`config.json` load (caught broadly on src/ip_manager.py:103-104), the HTTP
outcome of the initial `old_ip` resolution (line 107), the outcomes of the
four `su` subprocess calls behind the two airplane-mode toggles, and the
HTTP outcome of each confirmation poll. -/
structure PhoneEnv where
  configLoad : Except PyExn Unit
  oldIpHttp : HttpResult
  toggleOnR1 : SubprocResult
  toggleOnR2 : SubprocResult
  toggleOffR1 : SubprocResult
  toggleOffR2 : SubprocResult
  confirmHttp : Nat → HttpResult

/-- Embeds `change_mobile_ip_at_phone` (src/ip_manager.py:58-151): resolve
the current IP (result printed only), toggle airplane mode on, wait 3s,
toggle it off, wait 4s — toggle failures are caught and logged, never
propagated — then run the bounded confirmation loop.  Returns the resolved
new IP (`None` on exhaustion), the history file, and the event trace. -/
def change_mobile_ip_at_phone (env : PhoneEnv) (store : Option (List String)) :
    Option String × Option (List String) × List Event :=
  let _old := get_public_ipv4 env.oldIpHttp
  let rest := confirmFrom env.confirmHttp store 0 max_attempts
  (rest.1, rest.2.1,
    Event.toggle true (toggleFailed env.toggleOnR1 env.toggleOnR2)
    :: Event.wait 3
    :: Event.toggle false (toggleFailed env.toggleOffR1 env.toggleOffR2)
    :: Event.wait 4
    :: rest.2.2)

/-- The structured rotation result (src/ip_manager.py:172-185), without the
wall-clock `change_duration` field. -/
structure IpChangeResult where
  success : Bool
  old_ip : String
  new_ip : String
deriving DecidableEq, Repr

/-- Environment of one `IPManager.change_ip` run: the HTTP outcome of its own
initial `old_ip` resolution (src/ip_manager.py:162) and the environment of
the inner `change_mobile_ip_at_phone` call. -/
structure ChangeIpEnv where
  oldIpHttp : HttpResult
  phone : PhoneEnv

/-- The `old_ip` reported by `IPManager.change_ip`: the resolved value, or
"Unknown" when the resolution is falsy (src/ip_manager.py:162-164). -/
def reported_old_ip (r : HttpResult) : String :=
  let o := get_public_ipv4 r
  if pyTruthyS o then o.getD "Unknown" else "Unknown"

/-- Embeds `IPManager.change_ip` (src/ip_manager.py:157-185): resolve
`old_ip` (a falsy resolution is reported as "Unknown"), run the rotation,
and build the result: `success` is true iff a truthy `new_ip` was resolved
and differs from the reported `old_ip`; an unresolved `new_ip` is reported
as "Failed". -/
def IPManager.change_ip (env : ChangeIpEnv) (store : Option (List String)) :
    IpChangeResult × Option (List String) × List Event :=
  let old_ip := reported_old_ip env.oldIpHttp
  let out := change_mobile_ip_at_phone env.phone store
  match out.1 with
  | some new_ip =>
    if new_ip = old_ip then
      ({ success := false, old_ip := old_ip, new_ip := new_ip }, out.2.1, out.2.2)
    else
      ({ success := true, old_ip := old_ip, new_ip := new_ip }, out.2.1, out.2.2)
  | none => ({ success := false, old_ip := old_ip, new_ip := "Failed" }, out.2.1, out.2.2)

/-! ### Exception-explicit semantics of the rotation path

The functions below repeat the rotation code with Python exception
propagation made explicit in the `Except PyExn` monad, with each `try` /
`except` block rendered by `catchWith`.  Proving that this semantics always
returns `Except.ok` of the pure result is the formal content of "the
controller never raises to its caller". -/

/-- A Python `try` / `except` block: `handles` selects the exception classes
named by the `except` clauses, `handler` is the handler's result. -/
def catchWith (handles : PyExn → Bool) (handler : PyExn → α) :
    Except PyExn α → Except PyExn α
  | .ok a => .ok a
  | .error e => if handles e then .ok (handler e) else .error e

/-- Which exceptions an `except requests.RequestException` clause catches. -/
def isRequestException : PyExn → Bool
  | .requestException => true
  | _ => false

/-- Which exceptions an `except subprocess.CalledProcessError` clause catches. -/
def isCalledProcessError : PyExn → Bool
  | .calledProcessError => true
  | _ => false

/-- `requests.get(...)` with exception propagation explicit. -/
def requests_getE (r : HttpResult) : Except PyExn String :=
  match r with
  | .exn => .error .requestException
  | .body s => .ok s

/-- `get_public_ipv4` with exception propagation explicit
(src/ip_manager.py:18-22). -/
def get_public_ipv4E (r : HttpResult) : Except PyExn (Option String) :=
  catchWith isRequestException (fun _ => none)
    (do
      let t ← requests_getE r
      pure (some (pyStrip t)))

/-- One `subprocess.run(['su', ...], check=True)` with exception propagation
explicit. -/
def subprocess_suE : SubprocResult → Except PyExn Unit
  | .ok => .ok ()
  | .calledProcessError => .error .calledProcessError

/-- `toggle_airplane_mode` with exception propagation explicit
(src/ip_manager.py:64-77): two subprocess calls inside one `try`, a
`CalledProcessError` is caught and printed. -/
def toggle_airplane_modeE (r1 r2 : SubprocResult) : Except PyExn Unit :=
  catchWith isCalledProcessError (fun _ => ())
    (do
      subprocess_suE r1
      subprocess_suE r2)

/-- The `config.json` load of `change_mobile_ip_at_phone` with its broad
`except Exception` clause (src/ip_manager.py:95-104). -/
def load_configE (c : Except PyExn Unit) : Except PyExn Unit :=
  catchWith (fun _ => true) (fun _ => ()) c

/-- The confirmation loop with exception propagation explicit. -/
def confirmFromE (resolve : Nat → HttpResult) (store : Option (List String)) :
    Nat → Nat → Except PyExn (Option String × Option (List String) × List Event)
  | _, 0 => .ok (none, store, [])
  | attempt, r + 1 => do
    let new_ip ← get_public_ipv4E (resolve attempt)
    match new_ip with
    | some ip =>
      if ip.data.isEmpty then
        let rest ← confirmFromE resolve store (attempt + 1) r
        pure (rest.1, rest.2.1, Event.poll attempt :: Event.wait poll_sleep :: rest.2.2)
      else
        pure (some ip, some (record_ip store ip).2, [Event.poll attempt, Event.confirmed ip])
    | none =>
      let rest ← confirmFromE resolve store (attempt + 1) r
      pure (rest.1, rest.2.1, Event.poll attempt :: Event.wait poll_sleep :: rest.2.2)

/-- `change_mobile_ip_at_phone` with exception propagation explicit, in the
source's statement order: config load, initial resolution, the two toggles,
then the confirmation loop. -/
def change_mobile_ip_at_phoneE (env : PhoneEnv) (store : Option (List String)) :
    Except PyExn (Option String × Option (List String) × List Event) := do
  load_configE env.configLoad
  let _old ← get_public_ipv4E env.oldIpHttp
  toggle_airplane_modeE env.toggleOnR1 env.toggleOnR2
  toggle_airplane_modeE env.toggleOffR1 env.toggleOffR2
  let rest ← confirmFromE env.confirmHttp store 0 max_attempts
  pure (rest.1, rest.2.1,
    Event.toggle true (toggleFailed env.toggleOnR1 env.toggleOnR2)
    :: Event.wait 3
    :: Event.toggle false (toggleFailed env.toggleOffR1 env.toggleOffR2)
    :: Event.wait 4
    :: rest.2.2)

/-- `IPManager.change_ip` with exception propagation explicit
(src/ip_manager.py:157-185). -/
def IPManager.change_ipE (env : ChangeIpEnv) (store : Option (List String)) :
    Except PyExn (IpChangeResult × Option (List String) × List Event) := do
  let old0 ← get_public_ipv4E env.oldIpHttp
  let old_ip := if pyTruthyS old0 then old0.getD "Unknown" else "Unknown"
  let out ← change_mobile_ip_at_phoneE env.phone store
  match out.1 with
  | some new_ip =>
    if new_ip = old_ip then
      pure ({ success := false, old_ip := old_ip, new_ip := new_ip }, out.2.1, out.2.2)
    else
      pure ({ success := true, old_ip := old_ip, new_ip := new_ip }, out.2.1, out.2.2)
  | none => pure ({ success := false, old_ip := old_ip, new_ip := "Failed" }, out.2.1, out.2.2)

/-! ### main.py — the device agent -/

/-- Whether a character list is a valid tail of a Python decimal integer
literal: digits, with each underscore followed by a digit. -/
def digitsRest : List Char → Bool
  | [] => true
  | '_' :: rest =>
    match rest with
    | [] => false
    | c :: cs => c.isDigit && digitsRest cs
  | c :: cs => c.isDigit && digitsRest cs

/-- Whether a character list is a nonempty valid Python decimal digit run. -/
def digitsOk : List Char → Bool
  | [] => false
  | c :: cs => c.isDigit && digitsRest cs

/-- Numeric value of a digit run, skipping underscores. -/
def digitsVal (cs : List Char) : Nat :=
  cs.foldl (fun acc c => if c == '_' then acc else acc * 10 + (c.toNat - '0'.toNat)) 0

/-- Models Python `int()` applied to a decimal string: surrounding whitespace
is stripped, an optional single sign is allowed, then a digit run with
single underscores between digits; anything else raises `ValueError`,
modelled as `none`. -/
def pyIntOfString (s : String) : Option Int :=
  let cs := stripChars s.data
  match cs with
  | '+' :: rest => if digitsOk rest then some (Int.ofNat (digitsVal rest)) else none
  | '-' :: rest => if digitsOk rest then some (-Int.ofNat (digitsVal rest)) else none
  | _ => if digitsOk cs then some (Int.ofNat (digitsVal cs)) else none

/-- Python `str.split('.')`: split a character list at every dot; the empty
string yields one empty part. -/
def splitOnDot : List Char → List (List Char)
  | [] => [[]]
  | c :: cs =>
    let rest := splitOnDot cs
    if c == '.' then [] :: rest
    else
      match rest with
      | [] => [[c]]
      | p :: ps => (c :: p) :: ps

/-- Embeds `DeviceAgent.validate_ip` (src/main.py:173-179): split on dots,
require exactly four parts, each parsing as an integer in 0..255; any
`ValueError` makes the whole check false. -/
def validate_ip (ip : String) : Bool :=
  let parts := splitOnDot ip.data
  parts.length == 4 && parts.all fun p =>
    match pyIntOfString (String.mk p) with
    | some n => decide (0 ≤ n) && decide (n ≤ 255)
    | none => false

/-- Outcome of one aiohttp GET against an IP-echo service: an exception, or
a response with a status code and body. -/
inductive ServiceResp where
  | exn
  | resp (status : Nat) (body : String)
deriving DecidableEq, Repr

/-- Outcome of the `curl -s ifconfig.me` fallback subprocess:
`none` when it raises (e.g. `TimeoutExpired`), otherwise its exit code and
standard output. -/
structure CurlResult where
  returncode : Int
  stdout : String
deriving DecidableEq, Repr

/-- Environment of one `DeviceAgent.get_current_ip` call: the three IP-echo
services tried in order, then the curl fallback. -/
structure GetIpEnv where
  ipify : ServiceResp
  ifconfig : ServiceResp
  ipecho : ServiceResp
  curl : Option CurlResult
deriving DecidableEq, Repr

/-- One iteration of the service loop in `DeviceAgent.get_current_ip`
(src/main.py:147-155): on a 200 response whose stripped body validates,
return it; on any other outcome fall through. -/
def try_service (r : ServiceResp) : Option String :=
  match r with
  | .exn => none
  | .resp status body =>
    if status == 200 then
      let ip := pyStrip body
      if validate_ip ip then some ip else none
    else none

/-- Embeds `DeviceAgent.get_current_ip` (src/main.py:137-171): try the three
services in order, then the curl fallback (accepted only on exit code 0 with
a validating stripped output); every failure path degrades to "Unknown". -/
def DeviceAgent.get_current_ip (g : GetIpEnv) : String :=
  match try_service g.ipify with
  | some ip => ip
  | none =>
    match try_service g.ifconfig with
    | some ip => ip
    | none =>
      match try_service g.ipecho with
      | some ip => ip
      | none =>
        match g.curl with
        | none => "Unknown"
        | some c =>
          if c.returncode == 0 then
            let ip := pyStrip c.stdout
            if validate_ip ip then ip else "Unknown"
          else "Unknown"

/-- An HTTP call site of the agent: a description and the `timeout=` argument
passed at that site, in seconds. -/
structure HttpCallSpec where
  descr : String
  timeoutSecs : Nat
deriving DecidableEq, Repr

/-- The `POST /api/register` call (src/main.py:220-224). -/
def register_call : HttpCallSpec := { descr := "POST /api/register", timeoutSecs := 10 }

/-- The `POST /api/status` heartbeat call (src/main.py:253-257). -/
def status_call : HttpCallSpec := { descr := "POST /api/status", timeoutSecs := 10 }

/-- The `GET /api/commands/...` command-fetch call (src/main.py:267-270). -/
def commands_call : HttpCallSpec := { descr := "GET /api/commands", timeoutSecs := 10 }

/-- The `POST /api/report/ip_change` report call (src/main.py:298-303). -/
def report_call : HttpCallSpec := { descr := "POST /api/report/ip_change", timeoutSecs := 10 }

/-- Timeout of the `termux-telephony-deviceinfo` identification subprocess
(src/main.py:104-109), in seconds. -/
def telephony_timeout : Nat := 5

/-- The `GET https://ipv4.icanhazip.com` resolution call
(src/ip_manager.py:19). -/
def icanhazip_call : HttpCallSpec := { descr := "GET ipv4.icanhazip.com", timeoutSecs := 10 }

/-- The `GET https://api.ipify.org` resolution call (src/main.py:149). -/
def ipify_call : HttpCallSpec := { descr := "GET api.ipify.org", timeoutSecs := 5 }

/-- The `GET https://ifconfig.me/ip` resolution call (src/main.py:149). -/
def ifconfig_call : HttpCallSpec := { descr := "GET ifconfig.me/ip", timeoutSecs := 5 }

/-- The `GET https://ipecho.net/plain` resolution call (src/main.py:149). -/
def ipecho_call : HttpCallSpec := { descr := "GET ipecho.net/plain", timeoutSecs := 5 }

/-- Timeout of the `curl -s ifconfig.me` fallback subprocess
(src/main.py:157-162), in seconds. -/
def curl_fallback_timeout : Nat := 10

/-- A command object fetched from the control server; `command` is the value
of its "command" key, absent when the key is missing. -/
structure Command where
  command : Option String
deriving DecidableEq, Repr

/-- Observable actions of the agent loop, in execution order. -/
inductive AgentEvent where
  | fetchCommands
  | execCmd (c : Command)
  | reportIpChange (r : IpChangeResult)
  | sendStatus
deriving DecidableEq, Repr

/-- In-memory state of one `DeviceAgent` relevant to the loop, plus the
history file it writes through the rotation path. -/
structure AgentState where
  running : Bool
  current_ip : Option String
  store : Option (List String)
deriving DecidableEq, Repr

/-- Embeds `DeviceAgent.send_status` (src/main.py:241-261): refresh
`current_ip` via `get_current_ip`, then post the heartbeat (response ignored,
failures swallowed). -/
def DeviceAgent.send_status (g : GetIpEnv) (s : AgentState) : AgentState × List AgentEvent :=
  ({ s with current_ip := some (DeviceAgent.get_current_ip g) }, [AgentEvent.sendStatus])

/-- Embeds `DeviceAgent.change_ip` (src/main.py:181-198): run
`IPManager.change_ip`, and on success update `current_ip` to the new IP. -/
def DeviceAgent.change_ip (rot : ChangeIpEnv) (s : AgentState) : IpChangeResult × AgentState :=
  let out := IPManager.change_ip rot s.store
  let r := out.1
  (r, { s with
          store := out.2.1,
          current_ip := if r.success then some r.new_ip else s.current_ip })

/-- Embeds `DeviceAgent.execute_command` (src/main.py:281-311): dispatch on
the "command" key; `change_ip` rotates and then POSTs the rotation report,
`test` sends an immediate heartbeat (whose failures `send_status` itself
swallows), `stop` clears the running flag, anything else does nothing.  The
`execCmd` event records the dispatch itself.  `post` is the outcome of the
report POST (src/main.py:298-303): that call is not guarded by any `try`
inside `execute_command`, so when it raises the exception escapes this
function — returned as the `Option PyExn` component — while the agent-state
effects of the already-completed rotation are kept. -/
def DeviceAgent.execute_command (rot : ChangeIpEnv) (g : GetIpEnv)
    (post : Except PyExn Unit) (s : AgentState) (cmd : Command) :
    AgentState × List AgentEvent × Option PyExn :=
  match cmd.command with
  | some c =>
    if c = "change_ip" then
      let out := DeviceAgent.change_ip rot s
      match post with
      | .ok _ => (out.2, [AgentEvent.execCmd cmd, AgentEvent.reportIpChange out.1], none)
      | .error e => (out.2, [AgentEvent.execCmd cmd], some e)
    else if c = "test" then
      let out := DeviceAgent.send_status g s
      (out.1, AgentEvent.execCmd cmd :: out.2, none)
    else if c = "stop" then
      ({ s with running := false }, [AgentEvent.execCmd cmd], none)
    else (s, [AgentEvent.execCmd cmd], none)
  | none => (s, [AgentEvent.execCmd cmd], none)

/-- The `for cmd in commands` body of `DeviceAgent.check_commands`
(src/main.py:275-276): execute each fetched command in list order, threading
the agent state; `posts k` is the outcome of the report POST of the command
at position `k` (consulted only by `change_ip` commands).  The running flag
is not consulted here, but an exception escaping `execute_command` (a
raising report POST) aborts the remaining batch, propagating to
`check_commands`' bare `except`. -/
def exec_batch (rot : ChangeIpEnv) (g : GetIpEnv) (posts : Nat → Except PyExn Unit)
    (s : AgentState) : List Command → AgentState × List AgentEvent
  | [] => (s, [])
  | c :: cs =>
    let out := DeviceAgent.execute_command rot g (posts 0) s c
    match out.2.2 with
    | some _ => (out.1, out.2.1)
    | none =>
      let rest := exec_batch rot g (fun n => posts (n + 1)) out.1 cs
      (rest.1, out.2.1 ++ rest.2)

/-- Embeds `DeviceAgent.check_commands` (src/main.py:263-279): `fetch` is
`some cmds` when the GET returned 200 with that command list, `none` when it
failed or returned another status.  The whole body sits in a bare
`try/except: pass` (src/main.py:265-279), so both a failing fetch and an
exception raised mid-batch by a report POST are swallowed here, the latter
after having skipped the remaining commands of the batch. -/
def DeviceAgent.check_commands (rot : ChangeIpEnv) (g : GetIpEnv)
    (posts : Nat → Except PyExn Unit) (s : AgentState)
    (fetch : Option (List Command)) : AgentState × List AgentEvent :=
  match fetch with
  | none => (s, [])
  | some cmds => exec_batch rot g posts s cmds

/-- Heartbeat interval of the run loop, in seconds (src/main.py:326). -/
def status_interval : Nat := 30

/-- Command-fetch interval of the run loop, in seconds (src/main.py:327). -/
def command_interval : Nat := 5

/-- State of the `run()` loop: the agent plus the two last-fired timestamps
(src/main.py:328-329). -/
structure LoopState where
  agent : AgentState
  last_status : Nat
  last_command : Nat

/-- Environment of one loop iteration: the clock value read at its start,
the command fetch outcome, and the oracles used by any rotation, report
POST, or heartbeat performed in it. -/
structure TickEnv where
  now : Nat
  fetch : Option (List Command)
  rot : ChangeIpEnv
  statusIp : GetIpEnv
  posts : Nat → Except PyExn Unit

/-- Embeds one iteration of the `while self.running` loop
(src/main.py:331-343): if the command interval has elapsed, fetch and run
commands and reset `last_command`; then, if the status interval has elapsed,
send a heartbeat and reset `last_status`; both checks use the same clock
reading.  The clock is monotone, so the Python float subtraction is modelled
by truncated `Nat` subtraction. -/
def DeviceAgent.tick (e : TickEnv) (s : LoopState) : LoopState × List AgentEvent :=
  let step1 : AgentState × List AgentEvent × Nat :=
    if command_interval ≤ e.now - s.last_command then
      let out := DeviceAgent.check_commands e.rot e.statusIp e.posts s.agent e.fetch
      (out.1, AgentEvent.fetchCommands :: out.2, e.now)
    else (s.agent, [], s.last_command)
  let step2 : AgentState × List AgentEvent × Nat :=
    if status_interval ≤ e.now - s.last_status then
      let out := DeviceAgent.send_status e.statusIp step1.1
      (out.1, out.2, e.now)
    else (step1.1, [], s.last_status)
  ({ agent := step2.1, last_status := step2.2.2, last_command := step1.2.2 },
   step1.2.1 ++ step2.2.1)

/-- Embeds the `while self.running` loop of `DeviceAgent.run`
(src/main.py:331-351) as a fuel-bounded iteration: `env k` supplies the
environment of the k-th remaining iteration; the loop exits as soon as the
running flag is false.  Returns the concatenated event trace. -/
def DeviceAgent.run_loop : Nat → (Nat → TickEnv) → LoopState → List AgentEvent
  | 0, _, _ => []
  | fuel + 1, env, s =>
    if s.agent.running then
      let out := DeviceAgent.tick (env 0) s
      out.2 ++ DeviceAgent.run_loop fuel (fun n => env (n + 1)) out.1
    else []

/-- The commands dispatched in a trace, in order. -/
def execEvents (evs : List AgentEvent) : List Command :=
  evs.filterMap fun e => match e with | AgentEvent.execCmd c => some c | _ => none

/-! ### Lemmas about the confirmation loop -/

theorem countPolls_nil : countPolls [] = 0 := rfl

theorem countPolls_poll (a : Nat) (tr : List Event) :
    countPolls (Event.poll a :: tr) = countPolls tr + 1 := by
  simp [countPolls, List.countP_cons]

theorem countPolls_wait (w : Nat) (tr : List Event) :
    countPolls (Event.wait w :: tr) = countPolls tr := by
  simp [countPolls, List.countP_cons]

theorem countPolls_toggle (b f : Bool) (tr : List Event) :
    countPolls (Event.toggle b f :: tr) = countPolls tr := by
  simp [countPolls, List.countP_cons]

theorem countPolls_confirmed (ip : String) (tr : List Event) :
    countPolls (Event.confirmed ip :: tr) = countPolls tr := by
  simp [countPolls, List.countP_cons]

/-- The confirmation loop polls at most as often as its remaining budget. -/
theorem confirmFrom_polls_le (resolve : Nat → HttpResult) (store : Option (List String)) :
    ∀ r a, countPolls (confirmFrom resolve store a r).2.2 ≤ r := by
  intro r
  induction r with
  | zero => intro a; simp [confirmFrom, countPolls_nil]
  | succ n ih =>
    intro a
    unfold confirmFrom
    cases hg : get_public_ipv4 (resolve a) with
    | none =>
      simp only [countPolls_poll, countPolls_wait]
      exact Nat.succ_le_succ (ih (a + 1))
    | some ip =>
      by_cases he : ip.data.isEmpty
      · simp only [he, if_pos, countPolls_poll, countPolls_wait]
        exact Nat.succ_le_succ (ih (a + 1))
      · simp only [he, if_neg, Bool.false_eq_true, not_false_iff]
        simp [countPolls_poll, countPolls_confirmed, countPolls_nil]

/-- If every poll inside the budget window is falsy, the loop exhausts its
budget: no IP is resolved, the history file is untouched, and exactly
`r` polls are made. -/
theorem confirmFrom_exhausted (resolve : Nat → HttpResult) (store : Option (List String)) :
    ∀ r a, (∀ k, a ≤ k → k < a + r → pyTruthyS (get_public_ipv4 (resolve k)) = false) →
      (confirmFrom resolve store a r).1 = none
      ∧ (confirmFrom resolve store a r).2.1 = store
      ∧ countPolls (confirmFrom resolve store a r).2.2 = r := by
  intro r
  induction r with
  | zero => intro a _; exact ⟨rfl, rfl, rfl⟩
  | succ n ih =>
    intro a h
    have h0 := h a (Nat.le_refl a) (by omega)
    have hrec := ih (a + 1) (fun k hk1 hk2 => h k (by omega) (by omega))
    unfold confirmFrom
    cases hg : get_public_ipv4 (resolve a) with
    | none =>
      simp only [countPolls_poll, countPolls_wait]
      exact ⟨hrec.1, hrec.2.1, by rw [hrec.2.2]⟩
    | some ip =>
      have he : ip.data.isEmpty = true := by
        rw [hg] at h0
        simpa [pyTruthyS] using h0
      simp only [he, if_pos, countPolls_poll, countPolls_wait]
      exact ⟨hrec.1, hrec.2.1, by rw [hrec.2.2]⟩

/-- If the poll at offset `k` inside the budget is the first truthy one, the
loop exits there: it returns exactly that resolved value after `k + 1`
polls. -/
theorem confirmFrom_first_truthy (resolve : Nat → HttpResult) (store : Option (List String)) :
    ∀ k r a, k < r →
      pyTruthyS (get_public_ipv4 (resolve (a + k))) = true →
      (∀ j, j < k → pyTruthyS (get_public_ipv4 (resolve (a + j))) = false) →
      (confirmFrom resolve store a r).1 = get_public_ipv4 (resolve (a + k))
      ∧ countPolls (confirmFrom resolve store a r).2.2 = k + 1 := by
  intro k
  induction k with
  | zero =>
    intro r a hk ht _
    match r, hk with
    | n + 1, _ =>
      rw [Nat.add_zero] at ht
      unfold confirmFrom
      cases hg : get_public_ipv4 (resolve a) with
      | none => rw [hg] at ht; simp [pyTruthyS] at ht
      | some ip =>
        have he : ip.data.isEmpty = false := by
          rw [hg] at ht
          simpa [pyTruthyS] using ht
        simp only [he, Bool.false_eq_true, if_neg, not_false_iff]
        rw [Nat.add_zero, hg]
        exact ⟨rfl, by simp [countPolls_poll, countPolls_confirmed, countPolls_nil]⟩
  | succ m ih =>
    intro r a hk ht hf
    match r, hk with
    | n + 1, hk =>
      have h0 : pyTruthyS (get_public_ipv4 (resolve a)) = false := by
        have := hf 0 (Nat.zero_lt_succ m)
        simpa using this
      have hshift : a + 1 + m = a + (m + 1) := by omega
      have hrec := ih n (a + 1) (by omega)
        (by rw [hshift]; exact ht)
        (fun j hj => by
          have : a + 1 + j = a + (j + 1) := by omega
          rw [this]; exact hf (j + 1) (by omega))
      unfold confirmFrom
      cases hg : get_public_ipv4 (resolve a) with
      | none =>
        simp only [countPolls_poll, countPolls_wait]
        rw [← hshift]
        exact ⟨hrec.1, by rw [hrec.2]⟩
      | some ip =>
        have he : ip.data.isEmpty = true := by
          rw [hg] at h0
          simpa [pyTruthyS] using h0
        simp only [he, if_pos, countPolls_poll, countPolls_wait]
        rw [← hshift]
        exact ⟨hrec.1, by rw [hrec.2]⟩

/-- The rotation trace has the same polls as its confirmation phase. -/
theorem change_mobile_polls (env : PhoneEnv) (store : Option (List String)) :
    countPolls (change_mobile_ip_at_phone env store).2.2 =
      countPolls (confirmFrom env.confirmHttp store 0 max_attempts).2.2 := by
  simp [change_mobile_ip_at_phone, countPolls_toggle, countPolls_wait]

/-- C4: if every one of the 15 confirmation attempts fails to resolve an IP
(is Python-falsy), `IPManager.change_ip` returns exactly the failure result:
`new_ip = "Failed"`, `success = false`, the reported `old_ip`, the history
file untouched — after the full budget of 15 polls, and (by the totality of
this embedding, made explicit by the exception-level semantics below)
without raising. -/
theorem claim_C4_exhaustion_failed_result (env : ChangeIpEnv) (store : Option (List String))
    (h : ∀ k, k < max_attempts → pyTruthyS (get_public_ipv4 (env.phone.confirmHttp k)) = false) :
    (IPManager.change_ip env store).1 =
      { success := false, old_ip := reported_old_ip env.oldIpHttp, new_ip := "Failed" }
    ∧ (IPManager.change_ip env store).2.1 = store
    ∧ countPolls (IPManager.change_ip env store).2.2 = max_attempts := by
  have hex := confirmFrom_exhausted env.phone.confirmHttp store max_attempts 0
    (fun k hk1 hk2 => h k (by omega))
  have htr : (IPManager.change_ip env store).2.2 = (change_mobile_ip_at_phone env.phone store).2.2 := by
    unfold IPManager.change_ip
    cases hg : (change_mobile_ip_at_phone env.phone store).1 with
    | none => simp [hg]
    | some ip => by_cases hh : ip = reported_old_ip env.oldIpHttp <;> simp [hg, hh]
  have hnone : (change_mobile_ip_at_phone env.phone store).1 = none := hex.1
  refine ⟨?_, ?_, ?_⟩
  · simp only [IPManager.change_ip, hnone]
  · simp only [IPManager.change_ip, hnone]
    exact hex.2.1
  · rw [htr, change_mobile_polls]
    exact hex.2.2

/-- Concrete input for the exhaustion path: every network call raises. -/
def envAllFail : ChangeIpEnv :=
  { oldIpHttp := HttpResult.exn,
    phone :=
      { configLoad := Except.ok (),
        oldIpHttp := HttpResult.exn,
        toggleOnR1 := SubprocResult.ok,
        toggleOnR2 := SubprocResult.ok,
        toggleOffR1 := SubprocResult.ok,
        toggleOffR2 := SubprocResult.ok,
        confirmHttp := fun _ => HttpResult.exn } }

/-- Witness for C4 at the concrete all-failing environment. -/
theorem claim_C4_witness :
    (IPManager.change_ip envAllFail none).1 =
      { success := false, old_ip := reported_old_ip envAllFail.oldIpHttp, new_ip := "Failed" }
    ∧ (IPManager.change_ip envAllFail none).2.1 = none
    ∧ countPolls (IPManager.change_ip envAllFail none).2.2 = max_attempts :=
  claim_C4_exhaustion_failed_result envAllFail none (fun _ _ => rfl)

/-- C5: the confirmation loop inside the rotation terminates within its
budget for every resolver behaviour: at most 15 polls are made, and when
the poll at index `k` is the first truthy one the loop exits right there,
after exactly `k + 1` polls, returning that resolved value. -/
theorem claim_C5_bounded_polling (env : PhoneEnv) (store : Option (List String)) :
    countPolls (change_mobile_ip_at_phone env store).2.2 ≤ max_attempts
    ∧ (∀ k, k < max_attempts →
        pyTruthyS (get_public_ipv4 (env.confirmHttp k)) = true →
        (∀ j, j < k → pyTruthyS (get_public_ipv4 (env.confirmHttp j)) = false) →
        (change_mobile_ip_at_phone env store).1 = get_public_ipv4 (env.confirmHttp k)
        ∧ countPolls (change_mobile_ip_at_phone env store).2.2 = k + 1) := by
  constructor
  · rw [change_mobile_polls]
    exact confirmFrom_polls_le env.confirmHttp store max_attempts 0
  · intro k hk ht hf
    have := confirmFrom_first_truthy env.confirmHttp store k max_attempts 0 hk
      (by simpa using ht) (fun j hj => by simpa using hf j hj)
    refine ⟨?_, ?_⟩
    · show (confirmFrom env.confirmHttp store 0 max_attempts).1 = _
      rw [this.1]
      simp
    · rw [change_mobile_polls]
      exact this.2

/-- Concrete phone environment whose third confirmation poll succeeds. -/
def envThird : PhoneEnv :=
  { configLoad := Except.ok (),
    oldIpHttp := HttpResult.exn,
    toggleOnR1 := SubprocResult.ok,
    toggleOnR2 := SubprocResult.ok,
    toggleOffR1 := SubprocResult.ok,
    toggleOffR2 := SubprocResult.ok,
    confirmHttp := fun k => if k == 2 then HttpResult.body "5.5.5.5" else HttpResult.exn }

/-- Witness for C5: with the first two polls failing and the third
resolving, the loop polls exactly 3 times and returns the third value. -/
theorem claim_C5_witness :
    countPolls (change_mobile_ip_at_phone envThird none).2.2 ≤ max_attempts
    ∧ (change_mobile_ip_at_phone envThird none).1 = get_public_ipv4 (envThird.confirmHttp 2)
    ∧ countPolls (change_mobile_ip_at_phone envThird none).2.2 = 2 + 1 := by
  have h := claim_C5_bounded_polling envThird none
  have hf : ∀ j, j < 2 → pyTruthyS (get_public_ipv4 (envThird.confirmHttp j)) = false := by
    intro j hj
    interval_cases j <;> rfl
  have h2 := h.2 2 (by decide) rfl hf
  exact ⟨h.1, h2.1, h2.2⟩

/-! ### Lemmas about the IP history store -/

theorem record_ip_nodup (store : Option (List String)) (ip : String)
    (h : nodupStore store) : nodupStore (some (record_ip store ip).2) := by
  cases store with
  | none => simp [record_ip, nodupStore]
  | some l =>
    by_cases hm : ip ∈ l
    · simpa [record_ip, hm, nodupStore] using h
    · simp only [record_ip, hm, if_neg, not_false_iff, nodupStore, Option.getD_some] at h ⊢
      refine List.Nodup.append h (List.nodup_singleton ip) ?_
      intro x hx1 hx2
      rw [List.mem_singleton] at hx2
      subst hx2
      exact hm hx1

theorem record_seq_cons (store : Option (List String)) (ip : String) (ips : List String) :
    record_seq store (ip :: ips) = record_seq (some (record_ip store ip).2) ips := rfl

theorem record_seq_nodup : ∀ (ips : List String) (store : Option (List String)),
    nodupStore store → nodupStore (record_seq store ips)
  | [], _, h => h
  | _ :: ips, store, h => record_seq_nodup ips _ (record_ip_nodup store _ h)

theorem record_ip_extends (store : Option (List String)) (ip : String) :
    ∃ t, (record_ip store ip).2 = store.getD [] ++ t := by
  cases store with
  | none => exact ⟨[ip], rfl⟩
  | some l =>
    by_cases hm : ip ∈ l
    · exact ⟨[], by simp [record_ip, hm]⟩
    · exact ⟨[ip], by simp [record_ip, hm]⟩

theorem record_seq_extends : ∀ (ips : List String) (store : Option (List String)),
    ∃ t, (record_seq store ips).getD [] = store.getD [] ++ t := by
  intro ips
  induction ips with
  | nil => intro store; exact ⟨[], by simp [record_seq]⟩
  | cons ip ips ih =>
    intro store
    obtain ⟨t2, ht2⟩ := ih (some (record_ip store ip).2)
    obtain ⟨t1, ht1⟩ := record_ip_extends store ip
    refine ⟨t1 ++ t2, ?_⟩
    rw [record_seq_cons, ht2]
    simp [ht1]

/-- C3 counterexample: the claim quantifies over every starting store state,
but `record_ip` never removes entries, so a history file that already holds
a duplicate still holds it after any further `record_ip` call: recording
"8.8.8.8" on a file containing "9.9.9.9" twice leaves a duplicated file. -/
theorem claim_C3_counterexample :
    ¬ nodupStore (record_seq (some ["9.9.9.9", "9.9.9.9"]) ["8.8.8.8"]) := by
  decide

/-- C3 (amended): starting from any duplicate-free store state (in
particular the absent or empty store), any sequence of `record_ip` calls
keeps the file duplicate-free; a record of an IP already present returns
`is_new = false` and leaves the file (hence `count()`) unchanged; a first
record appends the IP at the end and returns `is_new = true` (this also
pins down first-observed insertion order); and the previous contents are
always a prefix of the new contents (append-only). -/
theorem claim_C3_amended_dedup :
    (∀ store ips, nodupStore store → nodupStore (record_seq store ips))
    ∧ (∀ (l : List String) ip, ip ∈ l → record_ip (some l) ip = (false, l))
    ∧ (∀ (l : List String) ip, ip ∉ l → record_ip (some l) ip = (true, l ++ [ip]))
    ∧ (∀ ip, record_ip none ip = (true, [ip]))
    ∧ (∀ store ips, ∃ t, (record_seq store ips).getD [] = store.getD [] ++ t) := by
  refine ⟨fun store ips h => record_seq_nodup ips store h, ?_, ?_, fun ip => rfl,
    fun store ips => record_seq_extends ips store⟩
  · intro l ip hm
    simp [record_ip, hm]
  · intro l ip hm
    simp [record_ip, hm]

/-- Witness for C3, following the spec's dedup scenario: records of
"3.3.3.3", "3.3.3.3", "4.4.4.4" from a duplicate-free store. -/
theorem claim_C3_witness :
    nodupStore (record_seq (some []) ["3.3.3.3", "3.3.3.3", "4.4.4.4"])
    ∧ record_ip (some ["3.3.3.3"]) "3.3.3.3" = (false, ["3.3.3.3"])
    ∧ record_ip (some ["3.3.3.3"]) "4.4.4.4" = (true, ["3.3.3.3", "4.4.4.4"])
    ∧ record_ip none "3.3.3.3" = (true, ["3.3.3.3"])
    ∧ ∃ t, (record_seq (some ["3.3.3.3"]) ["4.4.4.4"]).getD [] = ["3.3.3.3"] ++ t :=
  ⟨claim_C3_amended_dedup.1 (some []) _ (by decide),
   claim_C3_amended_dedup.2.1 _ _ (by decide),
   claim_C3_amended_dedup.2.2.1 _ _ (by decide),
   claim_C3_amended_dedup.2.2.2.1 _,
   claim_C3_amended_dedup.2.2.2.2 (some ["3.3.3.3"]) _⟩

/-! ### The success semantics of the rotation result -/

/-- C1: for every rotation attempt, `success = true` iff the confirmation
loop resolved a new IP that differs from the reported `old_ip`; an
unresolved `old_ip` is reported as "Unknown"; a confirmed `new_ip` is
reported verbatim and yields `success = false` when unchanged; an
unresolved `new_ip` yields `success = false`. -/
theorem claim_C1_success_semantics (env : ChangeIpEnv) (store : Option (List String)) :
    ((IPManager.change_ip env store).1.success = true ↔
      (∃ ip, (change_mobile_ip_at_phone env.phone store).1 = some ip
        ∧ ip ≠ (IPManager.change_ip env store).1.old_ip))
    ∧ (pyTruthyS (get_public_ipv4 env.oldIpHttp) = false →
        (IPManager.change_ip env store).1.old_ip = "Unknown")
    ∧ (∀ ip, (change_mobile_ip_at_phone env.phone store).1 = some ip →
        (IPManager.change_ip env store).1.new_ip = ip
        ∧ (ip = (IPManager.change_ip env store).1.old_ip →
          (IPManager.change_ip env store).1.success = false))
    ∧ ((change_mobile_ip_at_phone env.phone store).1 = none →
        (IPManager.change_ip env store).1.success = false
        ∧ (IPManager.change_ip env store).1.new_ip = "Failed") := by
  have hold : (IPManager.change_ip env store).1.old_ip = reported_old_ip env.oldIpHttp := by
    simp only [IPManager.change_ip]
    cases hc : (change_mobile_ip_at_phone env.phone store).1 with
    | none => simp
    | some ip => by_cases h : ip = reported_old_ip env.oldIpHttp <;> simp [h]
  have hunk : pyTruthyS (get_public_ipv4 env.oldIpHttp) = false →
      (IPManager.change_ip env store).1.old_ip = "Unknown" := by
    intro h
    rw [hold]
    simp [reported_old_ip, h]
  refine ⟨?_, hunk, ?_, ?_⟩
  · cases hc : (change_mobile_ip_at_phone env.phone store).1 with
    | none =>
      have hres : (IPManager.change_ip env store).1 =
          { success := false, old_ip := reported_old_ip env.oldIpHttp, new_ip := "Failed" } := by
        simp only [IPManager.change_ip, hc]
      rw [hres]
      simp
    | some ip =>
      by_cases h : ip = reported_old_ip env.oldIpHttp
      · have hres : (IPManager.change_ip env store).1 =
            { success := false, old_ip := reported_old_ip env.oldIpHttp, new_ip := ip } := by
          simp only [IPManager.change_ip, hc, h, if_pos]
        rw [hres]
        simp [h]
      · have hres : (IPManager.change_ip env store).1 =
            { success := true, old_ip := reported_old_ip env.oldIpHttp, new_ip := ip } := by
          simp only [IPManager.change_ip, hc]
          rw [if_neg h]
        rw [hres]
        simp only [true_iff]
        exact ⟨ip, rfl, h⟩
  · intro ip hc
    rw [hold]
    by_cases h : ip = reported_old_ip env.oldIpHttp
    · have hres : (IPManager.change_ip env store).1 =
          { success := false, old_ip := reported_old_ip env.oldIpHttp, new_ip := ip } := by
        simp only [IPManager.change_ip, hc, h, if_pos]
      rw [hres]
      exact ⟨rfl, fun _ => rfl⟩
    · have hres : (IPManager.change_ip env store).1 =
          { success := true, old_ip := reported_old_ip env.oldIpHttp, new_ip := ip } := by
        simp only [IPManager.change_ip, hc]
        rw [if_neg h]
      rw [hres]
      exact ⟨rfl, fun habs => absurd habs h⟩
  · intro hc
    have hres : (IPManager.change_ip env store).1 =
        { success := false, old_ip := reported_old_ip env.oldIpHttp, new_ip := "Failed" } := by
      simp only [IPManager.change_ip, hc]
    rw [hres]
    exact ⟨rfl, rfl⟩

/-- Concrete rotation: old IP "1.1.1.1", first confirmation poll resolves
"2.2.2.2". -/
def envRotOk : ChangeIpEnv :=
  { oldIpHttp := HttpResult.body "1.1.1.1",
    phone :=
      { configLoad := Except.ok (),
        oldIpHttp := HttpResult.exn,
        toggleOnR1 := SubprocResult.ok,
        toggleOnR2 := SubprocResult.ok,
        toggleOffR1 := SubprocResult.ok,
        toggleOffR2 := SubprocResult.ok,
        confirmHttp := fun _ => HttpResult.body "2.2.2.2" } }

/-- Witness for C1: a confirmed, different IP yields `success = true`. -/
theorem claim_C1_witness :
    (IPManager.change_ip envRotOk none).1.success = true :=
  (claim_C1_success_semantics envRotOk none).1.mpr
    ⟨"2.2.2.2", by decide, by decide⟩

/-! ### Toggle failure does not abort the rotation -/

theorem confirmFrom_head (resolve : Nat → HttpResult) (store : Option (List String))
    (a r : Nat) :
    ∃ rest, (confirmFrom resolve store a (r + 1)).2.2 = Event.poll a :: rest := by
  unfold confirmFrom
  cases get_public_ipv4 (resolve a) with
  | none => exact ⟨_, rfl⟩
  | some ip =>
    dsimp only
    split
    · exact ⟨_, rfl⟩
    · exact ⟨_, rfl⟩

/-- C7: when an airplane-mode toggle fails (its subprocess raises, which is
caught and logged in the `failed` flag of the toggle event), the rotation
sequence still runs unchanged: the trace is both toggles with their waits
followed by the confirmation phase, and the confirmation phase still starts
with its first poll — the function returns normally rather than aborting. -/
theorem claim_C7_toggle_failure_continues (env : PhoneEnv) (store : Option (List String))
    (_hfail : toggleFailed env.toggleOnR1 env.toggleOnR2 = true
      ∨ toggleFailed env.toggleOffR1 env.toggleOffR2 = true) :
    (change_mobile_ip_at_phone env store).2.2 =
      Event.toggle true (toggleFailed env.toggleOnR1 env.toggleOnR2)
        :: Event.wait 3
        :: Event.toggle false (toggleFailed env.toggleOffR1 env.toggleOffR2)
        :: Event.wait 4
        :: (confirmFrom env.confirmHttp store 0 max_attempts).2.2
    ∧ ∃ rest, (confirmFrom env.confirmHttp store 0 max_attempts).2.2
        = Event.poll 0 :: rest := by
  refine ⟨rfl, ?_⟩
  have h15 : max_attempts = 14 + 1 := rfl
  rw [h15]
  exact confirmFrom_head env.confirmHttp store 0 14

/-- Concrete rotation in which the airplane-mode-on toggle fails. -/
def envToggleFail : PhoneEnv :=
  { configLoad := Except.ok (),
    oldIpHttp := HttpResult.exn,
    toggleOnR1 := SubprocResult.calledProcessError,
    toggleOnR2 := SubprocResult.ok,
    toggleOffR1 := SubprocResult.ok,
    toggleOffR2 := SubprocResult.ok,
    confirmHttp := fun _ => HttpResult.exn }

/-- Witness for C7 at a concrete failing-toggle environment. -/
theorem claim_C7_witness :
    (change_mobile_ip_at_phone envToggleFail none).2.2 =
      Event.toggle true (toggleFailed envToggleFail.toggleOnR1 envToggleFail.toggleOnR2)
        :: Event.wait 3
        :: Event.toggle false (toggleFailed envToggleFail.toggleOffR1 envToggleFail.toggleOffR2)
        :: Event.wait 4
        :: (confirmFrom envToggleFail.confirmHttp none 0 max_attempts).2.2
    ∧ ∃ rest, (confirmFrom envToggleFail.confirmHttp none 0 max_attempts).2.2
        = Event.poll 0 :: rest :=
  claim_C7_toggle_failure_continues envToggleFail none (Or.inl rfl)

/-! ### The rotation never raises -/

theorem get_public_ipv4E_ok (r : HttpResult) :
    get_public_ipv4E r = Except.ok (get_public_ipv4 r) := by
  cases r <;> rfl

theorem toggle_airplane_modeE_ok (r1 r2 : SubprocResult) :
    toggle_airplane_modeE r1 r2 = Except.ok () := by
  cases r1 <;> cases r2 <;> rfl

theorem load_configE_ok (c : Except PyExn Unit) :
    load_configE c = Except.ok () := by
  cases c with
  | ok a => cases a; rfl
  | error e => rfl

theorem confirmFromE_ok (resolve : Nat → HttpResult) (store : Option (List String)) :
    ∀ r a, confirmFromE resolve store a r = Except.ok (confirmFrom resolve store a r) := by
  intro r
  induction r with
  | zero => intro a; rfl
  | succ n ih =>
    intro a
    unfold confirmFromE confirmFrom
    rw [get_public_ipv4E_ok]
    cases get_public_ipv4 (resolve a) with
    | some ip =>
      by_cases he : ip.data.isEmpty
      · simp [he, ih (a + 1), Bind.bind, Except.bind, pure, Except.pure]
      · simp [he, Bind.bind, Except.bind, pure, Except.pure]
    | none => simp [ih (a + 1), Bind.bind, Except.bind, pure, Except.pure]

theorem change_mobile_ip_at_phoneE_ok (env : PhoneEnv) (store : Option (List String)) :
    change_mobile_ip_at_phoneE env store = Except.ok (change_mobile_ip_at_phone env store) := by
  unfold change_mobile_ip_at_phoneE change_mobile_ip_at_phone
  rw [load_configE_ok, get_public_ipv4E_ok, toggle_airplane_modeE_ok, toggle_airplane_modeE_ok,
    confirmFromE_ok]
  rfl

/-- C6: the exception-explicit semantics of `IPManager.change_ip` always
returns `Except.ok` of the pure result: for every combination of toggle
subprocess failures, network/resolution failures, config-load failure, and
history-store state, every failure path degrades to an `IpChangeResult`
(whose failure shapes are established by the success-semantics and
exhaustion theorems above) and no exception propagates to the caller. -/
theorem claim_C6_never_raises (env : ChangeIpEnv) (store : Option (List String)) :
    IPManager.change_ipE env store = Except.ok (IPManager.change_ip env store) := by
  unfold IPManager.change_ipE IPManager.change_ip
  rw [get_public_ipv4E_ok, change_mobile_ip_at_phoneE_ok]
  simp only [Bind.bind, Except.bind, reported_old_ip]
  cases hc : (change_mobile_ip_at_phone env.phone store).1 with
  | none => simp [hc, pure, Except.pure]
  | some ip =>
    by_cases h : ip = (if pyTruthyS (get_public_ipv4 env.oldIpHttp)
        then (get_public_ipv4 env.oldIpHttp).getD "Unknown" else "Unknown")
    · simp [hc, h, pure, Except.pure]
    · simp [hc, h, pure, Except.pure]

/-! ### Validation of resolved IPs -/

theorem try_service_valid (r : ServiceResp) (ip : String)
    (h : try_service r = some ip) : validate_ip ip = true := by
  cases r with
  | exn => exact Option.noConfusion h
  | resp status body =>
    unfold try_service at h
    dsimp only at h
    by_cases hs : status == 200
    · rw [if_pos hs] at h
      by_cases hv : validate_ip (pyStrip body)
      · rw [if_pos hv] at h
        cases h
        exact hv
      · rw [if_neg hv] at h
        exact Option.noConfusion h
    · rw [if_neg hs] at h
      exact Option.noConfusion h

/-- Concrete rotation whose confirmation polls all return a malformed body. -/
def envMalformed : PhoneEnv :=
  { configLoad := Except.ok (),
    oldIpHttp := HttpResult.exn,
    toggleOnR1 := SubprocResult.ok,
    toggleOnR2 := SubprocResult.ok,
    toggleOffR1 := SubprocResult.ok,
    toggleOffR2 := SubprocResult.ok,
    confirmHttp := fun _ => HttpResult.body "not-an-ip" }

/-- C2 counterexample: `get_public_ipv4` — the resolver used by the whole
rotation path — applies no validation at all: a response body "not-an-ip",
which fails the four-octet rule, is returned as the resolved value, and the
rotation's confirmation loop accepts and records it. -/
theorem claim_C2_counterexample :
    get_public_ipv4 (HttpResult.body "not-an-ip") = some "not-an-ip"
    ∧ validate_ip "not-an-ip" = false
    ∧ (change_mobile_ip_at_phone envMalformed none).1 = some "not-an-ip" := by
  refine ⟨by decide, by decide, ?_⟩
  show (confirmFrom envMalformed.confirmHttp none 0 max_attempts).1 = some "not-an-ip"
  decide

/-- C2 (amended): the validated resolver `DeviceAgent.get_current_ip` never
returns a value failing `validate_ip` other than the "Unknown" failure
sentinel, and a 200 response whose stripped body fails validation is
rejected (falls through to the next service); `get_public_ipv4`, used by
the rotation path, is excluded because it returns any stripped response
body unvalidated. -/
theorem claim_C2_amended_validation :
    (∀ g : GetIpEnv, DeviceAgent.get_current_ip g = "Unknown"
      ∨ validate_ip (DeviceAgent.get_current_ip g) = true)
    ∧ (∀ body : String, validate_ip (pyStrip body) = false →
        try_service (ServiceResp.resp 200 body) = none) := by
  constructor
  · intro g
    unfold DeviceAgent.get_current_ip
    cases h1 : try_service g.ipify with
    | some ip => exact Or.inr (try_service_valid _ _ h1)
    | none =>
      cases h2 : try_service g.ifconfig with
      | some ip => exact Or.inr (try_service_valid _ _ h2)
      | none =>
        cases h3 : try_service g.ipecho with
        | some ip => exact Or.inr (try_service_valid _ _ h3)
        | none =>
          cases g.curl with
          | none => exact Or.inl rfl
          | some c =>
            dsimp only
            by_cases hr : c.returncode == 0
            · rw [if_pos hr]
              by_cases hv : validate_ip (pyStrip c.stdout)
              · rw [if_pos hv]
                exact Or.inr hv
              · rw [if_neg hv]
                exact Or.inl rfl
            · rw [if_neg hr]
              exact Or.inl rfl
  · intro body hv
    unfold try_service
    dsimp only
    rw [if_pos (by decide : ((200 : Nat) == 200) = true), if_neg (by simp [hv])]

/-- Concrete environment whose first service answers a malformed body and
whose second answers a valid IP. -/
def envEcho : GetIpEnv :=
  { ipify := ServiceResp.resp 200 "banana",
    ifconfig := ServiceResp.resp 200 "7.7.7.7",
    ipecho := ServiceResp.exn,
    curl := none }

/-- Witness for C2 (amended) at concrete inputs: a malformed first body is
rejected and the validated second body is returned. -/
theorem claim_C2_witness :
    (DeviceAgent.get_current_ip envEcho = "Unknown"
      ∨ validate_ip (DeviceAgent.get_current_ip envEcho) = true)
    ∧ try_service (ServiceResp.resp 200 "banana") = none :=
  ⟨claim_C2_amended_validation.1 envEcho,
   claim_C2_amended_validation.2 "banana" (by decide)⟩

/-! ### The command batch and its abort behaviour -/

theorem execEvents_append (l1 l2 : List AgentEvent) :
    execEvents (l1 ++ l2) = execEvents l1 ++ execEvents l2 := by
  simp [execEvents, List.filterMap_append]

theorem execute_command_events (rot : ChangeIpEnv) (g : GetIpEnv)
    (post : Except PyExn Unit) (s : AgentState) (c : Command) :
    execEvents (DeviceAgent.execute_command rot g post s c).2.1 = [c] := by
  unfold DeviceAgent.execute_command
  cases hc : c.command with
  | none => simp [execEvents]
  | some name =>
    dsimp only
    split_ifs
    · cases post <;> simp [execEvents]
    · simp [execEvents, DeviceAgent.send_status]
    · simp [execEvents]
    · simp [execEvents]

theorem execute_command_ok_noexc (rot : ChangeIpEnv) (g : GetIpEnv)
    (post : Except PyExn Unit) (s : AgentState) (c : Command)
    (h : post = Except.ok ()) :
    (DeviceAgent.execute_command rot g post s c).2.2 = none := by
  subst h
  unfold DeviceAgent.execute_command
  cases hc : c.command with
  | none => rfl
  | some name =>
    dsimp only
    split_ifs <;> rfl

theorem execute_command_not_change_noexc (rot : ChangeIpEnv) (g : GetIpEnv)
    (post : Except PyExn Unit) (s : AgentState) (c : Command)
    (h : c.command ≠ some "change_ip") :
    (DeviceAgent.execute_command rot g post s c).2.2 = none := by
  unfold DeviceAgent.execute_command
  cases hc : c.command with
  | none => rfl
  | some name =>
    dsimp only
    have hn : ¬(name = "change_ip") := by
      intro hn
      apply h
      rw [hc, hn]
    rw [if_neg hn]
    split_ifs <;> rfl

theorem exec_batch_events_ok (rot : ChangeIpEnv) (g : GetIpEnv) :
    ∀ (cmds : List Command) (posts : Nat → Except PyExn Unit) (s : AgentState),
      (∀ n, posts n = Except.ok ()) →
      execEvents (exec_batch rot g posts s cmds).2 = cmds := by
  intro cmds
  induction cmds with
  | nil => intro posts s _; rfl
  | cons c cs ih =>
    intro posts s hok
    unfold exec_batch
    dsimp only
    rw [execute_command_ok_noexc rot g (posts 0) s c (hok 0)]
    dsimp only
    rw [execEvents_append, execute_command_events, ih _ _ (fun n => hok (n + 1))]
    rfl

theorem exec_batch_events_take (rot : ChangeIpEnv) (g : GetIpEnv) :
    ∀ (cmds : List Command) (posts : Nat → Except PyExn Unit) (s : AgentState),
      ∃ k, execEvents (exec_batch rot g posts s cmds).2 = cmds.take k := by
  intro cmds
  induction cmds with
  | nil => intro posts s; exact ⟨0, rfl⟩
  | cons c cs ih =>
    intro posts s
    unfold exec_batch
    dsimp only
    cases hexc : (DeviceAgent.execute_command rot g (posts 0) s c).2.2 with
    | some _e =>
      exact ⟨1, execute_command_events rot g (posts 0) s c⟩
    | none =>
      obtain ⟨k, hk⟩ :=
        ih (fun n => posts (n + 1)) (DeviceAgent.execute_command rot g (posts 0) s c).1
      refine ⟨k + 1, ?_⟩
      rw [execEvents_append, execute_command_events, hk, List.take_succ_cons]
      rfl

theorem exec_batch_events_no_change (rot : ChangeIpEnv) (g : GetIpEnv) :
    ∀ (cmds : List Command) (posts : Nat → Except PyExn Unit) (s : AgentState),
      (∀ c ∈ cmds, c.command ≠ some "change_ip") →
      execEvents (exec_batch rot g posts s cmds).2 = cmds := by
  intro cmds
  induction cmds with
  | nil => intro posts s _; rfl
  | cons c cs ih =>
    intro posts s hnc
    unfold exec_batch
    dsimp only
    rw [execute_command_not_change_noexc rot g (posts 0) s c
      (hnc c (List.mem_cons_self c cs))]
    dsimp only
    rw [execEvents_append, execute_command_events,
      ih _ _ (fun d hd => hnc d (List.mem_cons_of_mem c hd))]
    rfl

/-- The stop command object. -/
def stopCmd : Command := { command := some "stop" }

/-- The rotation command object. -/
def changeIpCmd : Command := { command := some "change_ip" }

/-- Status environment in which no IP-echo source answers. -/
def noIpEnv : GetIpEnv :=
  { ipify := ServiceResp.exn, ifconfig := ServiceResp.exn,
    ipecho := ServiceResp.exn, curl := none }

/-- Report-POST oracle where every report POST raises. -/
def failPosts : Nat → Except PyExn Unit := fun _ => Except.error PyExn.otherError

/-- Report-POST oracle where every report POST succeeds. -/
def okPosts : Nat → Except PyExn Unit := fun _ => Except.ok ()

/-- Agent state at entry to the loop: running, no IP known, no history. -/
def agentStart : AgentState := { running := true, current_ip := none, store := none }

/-- C10 counterexample: for the fetched batch [change_ip, stop], when the
rotation report POST raises (src/main.py:298-303 is unguarded, and the
exception is only caught by check_commands' bare except around the whole
batch loop), the stop command is never executed: only change_ip is
dispatched and the running flag stays true, so "check_commands executes
every command in the batch" is false as stated. -/
theorem claim_C10_counterexample :
    execEvents (DeviceAgent.check_commands envAllFail noIpEnv failPosts agentStart
        (some [changeIpCmd, stopCmd])).2 = [changeIpCmd]
    ∧ [changeIpCmd] ≠ [changeIpCmd, stopCmd]
    ∧ (DeviceAgent.check_commands envAllFail noIpEnv failPosts agentStart
        (some [changeIpCmd, stopCmd])).1.running = true := by
  decide

/-- C10 (amended): `check_commands` dispatches the fetched batch in list
order, but a change_ip command whose unguarded report POST raises aborts the
rest of the batch (the exception is swallowed by check_commands' bare
except): when no report POST raises, every command of the batch is
dispatched in list order; in general the dispatched commands are a prefix of
the batch; and a batch containing no change_ip command — in particular one
where a stop precedes other commands — is always dispatched in full, since
the running flag is only consulted by the outer loop and only the change_ip
report POST can raise out of execute_command. -/
theorem claim_C10_amended_batch_order (rot : ChangeIpEnv) (g : GetIpEnv)
    (posts : Nat → Except PyExn Unit) (s : AgentState) (cmds : List Command) :
    ((∀ n, posts n = Except.ok ()) →
      execEvents (DeviceAgent.check_commands rot g posts s (some cmds)).2 = cmds)
    ∧ (∃ k, execEvents (DeviceAgent.check_commands rot g posts s (some cmds)).2 = cmds.take k)
    ∧ ((∀ c ∈ cmds, c.command ≠ some "change_ip") →
      execEvents (DeviceAgent.check_commands rot g posts s (some cmds)).2 = cmds) :=
  ⟨fun hok => exec_batch_events_ok rot g cmds posts s hok,
   exec_batch_events_take rot g cmds posts s,
   fun hnc => exec_batch_events_no_change rot g cmds posts s hnc⟩

/-- Witness for C10 (amended): with no failing POST, the batch
[stop, change_ip] is dispatched in full — the stop does not prevent the
later command. -/
theorem claim_C10_witness :
    execEvents (DeviceAgent.check_commands envAllFail noIpEnv okPosts agentStart
        (some [stopCmd, changeIpCmd])).2 = [stopCmd, changeIpCmd] :=
  (claim_C10_amended_batch_order envAllFail noIpEnv okPosts agentStart
    [stopCmd, changeIpCmd]).1 (fun _ => rfl)

/-! ### Stop semantics of the run loop -/

theorem execute_command_running_cases (rot : ChangeIpEnv) (g : GetIpEnv)
    (post : Except PyExn Unit) (s : AgentState) (c : Command) :
    (DeviceAgent.execute_command rot g post s c).1.running = s.running
    ∨ (DeviceAgent.execute_command rot g post s c).1.running = false := by
  unfold DeviceAgent.execute_command
  cases hc : c.command with
  | none => exact Or.inl rfl
  | some name =>
    dsimp only
    split_ifs
    · cases post <;> exact Or.inl rfl
    · exact Or.inl rfl
    · exact Or.inr rfl
    · exact Or.inl rfl

theorem execute_command_stop (rot : ChangeIpEnv) (g : GetIpEnv)
    (post : Except PyExn Unit) (s : AgentState) (c : Command)
    (h : c.command = some "stop") :
    (DeviceAgent.execute_command rot g post s c).1.running = false := by
  unfold DeviceAgent.execute_command
  rw [h]
  dsimp only
  rw [if_neg (by decide), if_neg (by decide), if_pos rfl]

theorem exec_batch_keeps_false (rot : ChangeIpEnv) (g : GetIpEnv) :
    ∀ (cmds : List Command) (posts : Nat → Except PyExn Unit) (s : AgentState),
      s.running = false → (exec_batch rot g posts s cmds).1.running = false := by
  intro cmds
  induction cmds with
  | nil => intro posts s h; exact h
  | cons c cs ih =>
    intro posts s h
    have hrun : (DeviceAgent.execute_command rot g (posts 0) s c).1.running = false := by
      rcases execute_command_running_cases rot g (posts 0) s c with hc | hc
      · rw [hc]; exact h
      · exact hc
    unfold exec_batch
    dsimp only
    cases hexc : (DeviceAgent.execute_command rot g (posts 0) s c).2.2 with
    | some _e => exact hrun
    | none => exact ih _ _ hrun

theorem exec_batch_stop (rot : ChangeIpEnv) (g : GetIpEnv) :
    ∀ (cmds : List Command) (posts : Nat → Except PyExn Unit) (s : AgentState),
      (∀ n, posts n = Except.ok ()) →
      (∃ c ∈ cmds, c.command = some "stop") →
      (exec_batch rot g posts s cmds).1.running = false := by
  intro cmds
  induction cmds with
  | nil =>
    intro posts s _ h
    rcases h with ⟨c, hc, _⟩
    cases hc
  | cons c cs ih =>
    intro posts s hok h
    unfold exec_batch
    dsimp only
    rw [execute_command_ok_noexc rot g (posts 0) s c (hok 0)]
    dsimp only
    rcases h with ⟨d, hd, hds⟩
    rcases List.mem_cons.mp hd with rfl | hmem
    · exact exec_batch_keeps_false rot g cs _ _
        (execute_command_stop rot g (posts 0) s d hds)
    · exact ih _ _ (fun n => hok (n + 1)) ⟨d, hmem, hds⟩

theorem send_status_running (g : GetIpEnv) (s : AgentState) :
    (DeviceAgent.send_status g s).1.running = s.running := rfl

theorem tick_stop (e : TickEnv) (s : LoopState) (cmds : List Command)
    (hdue : command_interval ≤ e.now - s.last_command)
    (hfetch : e.fetch = some cmds)
    (hok : ∀ n, e.posts n = Except.ok ())
    (hstop : ∃ c ∈ cmds, c.command = some "stop") :
    (DeviceAgent.tick e s).1.agent.running = false := by
  unfold DeviceAgent.tick
  rw [if_pos hdue, hfetch]
  dsimp only
  split
  · rw [send_status_running]
    exact exec_batch_stop e.rot e.statusIp cmds e.posts s.agent hok hstop
  · exact exec_batch_stop e.rot e.statusIp cmds e.posts s.agent hok hstop

theorem run_loop_not_running (fuel : Nat) (env : Nat → TickEnv) (s : LoopState)
    (h : s.agent.running = false) : DeviceAgent.run_loop fuel env s = [] := by
  cases fuel with
  | zero => rfl
  | succ n => simp [DeviceAgent.run_loop, h]

/-- C8 (amended): when the fetched batch contains a stop command and no
report POST of that batch raises (so batch execution is not aborted before
the stop — a change_ip earlier in the batch whose unguarded report POST
raises would skip the stop), the running flag is cleared during that tick
and `run()` exits right after it: the whole remaining trace is that tick's
events and no further command-fetch or heartbeat call is issued after the
tick.  A heartbeat already due in the same tick still fires after the stop
command is processed, which is what the original claim rules out. -/
theorem claim_C8_amended_stop_exits (fuel : Nat) (env : Nat → TickEnv) (s : LoopState)
    (cmds : List Command)
    (hrun : s.agent.running = true)
    (hdue : command_interval ≤ (env 0).now - s.last_command)
    (hfetch : (env 0).fetch = some cmds)
    (hok : ∀ n, (env 0).posts n = Except.ok ())
    (hstop : ∃ c ∈ cmds, c.command = some "stop") :
    (DeviceAgent.tick (env 0) s).1.agent.running = false
    ∧ DeviceAgent.run_loop (fuel + 1) env s = (DeviceAgent.tick (env 0) s).2 := by
  have h1 := tick_stop (env 0) s cmds hdue hfetch hok hstop
  refine ⟨h1, ?_⟩
  unfold DeviceAgent.run_loop
  rw [if_pos hrun]
  dsimp only
  rw [run_loop_not_running fuel _ _ h1, List.append_nil]

/-- Tick environment of the first loop iteration: both cadences due
(`last_status = last_command = 0`), the fetch returns `[stop]`, no report
POST raises. -/
def stopTickEnv : Nat → TickEnv := fun _ =>
  { now := 100, fetch := some [stopCmd], rot := envAllFail,
    statusIp := noIpEnv, posts := okPosts }

/-- Loop state at entry to `run()`'s while loop. -/
def loopStart : LoopState :=
  { agent := agentStart, last_status := 0, last_command := 0 }

/-- C8 counterexample: at a tick where both cadences are due (as on the very
first loop iteration, where `last_status = last_command = 0`) and the
fetched batch is `[stop]`, the status-interval heartbeat of the same
iteration still fires AFTER the stop command has been executed: the trace is
fetch, exec stop, and then a heartbeat, so "no further heartbeat
(send_status) calls issued after the stop command is processed" is false as
stated. -/
theorem claim_C8_counterexample :
    DeviceAgent.run_loop 5 stopTickEnv loopStart =
      [AgentEvent.fetchCommands, AgentEvent.execCmd stopCmd, AgentEvent.sendStatus] := by
  decide

/-- Witness for C8 (amended) at the concrete stop scenario. -/
theorem claim_C8_witness :
    (DeviceAgent.tick (stopTickEnv 0) loopStart).1.agent.running = false
    ∧ DeviceAgent.run_loop 5 stopTickEnv loopStart =
        (DeviceAgent.tick (stopTickEnv 0) loopStart).2 :=
  claim_C8_amended_stop_exits 4 stopTickEnv loopStart [stopCmd] rfl (by decide) rfl
    (fun _ => rfl) ⟨stopCmd, List.mem_cons_self stopCmd [], rfl⟩

/-! ### Timeouts -/

/-- C9 counterexample: the command-fetch call passes `timeout=10`
(src/main.py:269), not the 5 seconds the claim states. -/
theorem claim_C9_counterexample :
    commands_call.timeoutSecs = 10 ∧ commands_call.timeoutSecs ≠ 5 := by
  decide

/-- C9 (amended): registration and report calls use 10-second timeouts, the
command fetch also uses 10 seconds (not 5), the telephony identification
subprocess uses 5 seconds, every IP-resolution attempt uses at most 10
seconds, and consecutive resolution polls are `poll_sleep` = 2 seconds
apart. -/
theorem claim_C9_amended_timeouts :
    register_call.timeoutSecs = 10
    ∧ report_call.timeoutSecs = 10
    ∧ commands_call.timeoutSecs = 10
    ∧ telephony_timeout = 5
    ∧ icanhazip_call.timeoutSecs ≤ 10
    ∧ ipify_call.timeoutSecs ≤ 10
    ∧ ifconfig_call.timeoutSecs ≤ 10
    ∧ ipecho_call.timeoutSecs ≤ 10
    ∧ curl_fallback_timeout ≤ 10
    ∧ poll_sleep = 2 := by
  decide
